import Mathlib

/-!
Verification development for the tmux-mobile connection-and-session broker.

Shallow embedding of the backend modules that the checked claims are about:

* `src/backend/tmux/cli-executor.ts` (format strings) and
  `src/backend/tmux/parser.ts` (tab-delimited record parsing);
* `src/backend/auth/auth-service.ts` (`AuthService.verify`);
* `src/backend/pty/terminal-runtime.ts` (`TerminalRuntime`);
* `src/backend/state/state-monitor.ts` (`TmuxStateMonitor`);
* `src/backend/server.ts` (broker: `ensureAttachedSession`,
  `attachControlToBaseSession`, control/data socket lifecycle, fan-out).

JavaScript idioms are embedded explicitly: possibly-`undefined` values
become `Option`, `Number.parseInt` returning `NaN` becomes `Option Int`
(`none` models `NaN`), JS string truthiness is an explicit test against
the empty string, and JS numbers passed to `resize` are modelled as
`Option ℚ` where `none` stands for the non-finite values (`NaN`, `±∞`),
which the code rejects before any arithmetic.
-/

/-! ## Tab-delimited parsing (`parser.ts`) and format strings (`cli-executor.ts`) -/

/-- A parsed window record as produced by `parseWindows` in `parser.ts`.
`index`/`paneCount` are `Option Int` because `Number.parseInt` yields `NaN`
(modelled `none`) on a missing or non-numeric field; `name` is `Option`
because destructuring a short line yields `undefined`. -/
structure TmuxWindowRec where
  index : Option Int
  name : Option String
  active : Bool
  zoomed : Bool
  paneCount : Option Int
  deriving DecidableEq, Repr

/-- A ground-truth tmux window, the data the format string serializes. -/
structure TmuxWindow where
  index : Nat
  name : String
  active : Bool
  zoomed : Bool
  paneCount : Nat
  deriving DecidableEq, Repr

/-- Split a character list on a separator character (the semantics of JS
`String.prototype.split` with a one-character separator). -/
def splitCharsOn (sep : Char) : List Char → List (List Char)
  | [] => [[]]
  | c :: tl =>
    let rest := splitCharsOn sep tl
    if c = sep then [] :: rest
    else
      match rest with
      | [] => [[c]]
      | r :: rs => (c :: r) :: rs

/-- JS `String.prototype.trim`: drop leading and trailing whitespace. -/
def trimChars (cs : List Char) : List Char :=
  ((cs.dropWhile Char.isWhitespace).reverse.dropWhile Char.isWhitespace).reverse

/-- Digits of a decimal numeral folded into a `Nat`. -/
def digitsToNat (cs : List Char) : Nat :=
  cs.foldl (fun acc c => acc * 10 + (c.toNat - 48)) 0

/-- `Number.parseInt(s, 10)` on a possibly-`undefined` string: skip leading
whitespace, optional sign, then the maximal run of decimal digits; `NaN`
(here `none`) when the input is `undefined` or holds no digits. -/
def jsParseInt (field : Option String) : Option Int :=
  match field with
  | none => none
  | some s =>
    let cs := s.toList.dropWhile Char.isWhitespace
    let signed : Int × List Char :=
      match cs with
      | '-' :: tl => (-1, tl)
      | '+' :: tl => (1, tl)
      | _ => (1, cs)
    let ds := signed.2.takeWhile Char.isDigit
    if ds.isEmpty then none else some (signed.1 * (digitsToNat ds : Int))

/-- `splitLine` from `parser.ts`: split on a horizontal tab and trim each
field. -/
def splitLine (line : String) : List String :=
  ((splitCharsOn '\t' line.toList).map trimChars).map String.mk

/-- One line of `parseWindows` from `parser.ts`: destructure
`[index, name, active, zoomed, panes]` from the tab-separated fields
(missing positions are `undefined`). -/
def parseWindowLine (line : String) : TmuxWindowRec :=
  let fields := splitLine line
  { index := jsParseInt (fields.get? 0)
  , name := fields.get? 1
  , active := fields.get? 2 == some "1"
  , zoomed := fields.get? 3 == some "1"
  , paneCount := jsParseInt (fields.get? 4) }

/-- `parseWindows` from `parser.ts`: split the raw output on newlines, trim,
drop empty lines, parse each record line. -/
def parseWindows (raw : String) : List TmuxWindowRec :=
  (((((splitCharsOn '\n' raw.toList).map trimChars).map String.mk).filter
    (fun l => l ≠ "")).map parseWindowLine)

/-- Boolean tmux format flags render as the strings `1` / `0`. -/
def boolFlag (b : Bool) : String := if b then "1" else "0"

/-- One output line of `list-windows -F WINDOW_FMT` where `WINDOW_FMT` in
`cli-executor.ts` is
`#{window_index}\t#{window_name}\t#{window_active}\t#{window_panes}`:
four fields, with no zoom flag. -/
def formatWindowLine (w : TmuxWindow) : String :=
  toString w.index ++ "\t" ++ w.name ++ "\t" ++ boolFlag w.active ++ "\t" ++ toString w.paneCount

/-- The full `list-windows` output: one formatted line per window, joined by
line feeds. -/
def formatWindowOutput (ws : List TmuxWindow) : String :=
  String.intercalate "\n" (ws.map formatWindowLine)

/-- The record that a correct round-trip of a window through format-then-parse
would have to produce. -/
def windowRecOf (w : TmuxWindow) : TmuxWindowRec :=
  { index := some w.index
  , name := some w.name
  , active := w.active
  , zoomed := w.zoomed
  , paneCount := some w.paneCount }

/-! ## AuthService (`auth-service.ts`) -/

/-- The `{token?, password?}` payload given to `AuthService.verify`. -/
structure AuthPayload where
  token : Option String
  password : Option String
  deriving DecidableEq, Repr

/-- Result of `AuthService.verify`. -/
inductive VerifyResult
  | ok
  | fail (reason : String)
  deriving DecidableEq, Repr

/-- JS truthiness of a possibly-`undefined` string: `undefined` and the empty
string are falsy. -/
def strTruthy : Option String → Bool
  | none => false
  | some s => s ≠ ""

/-- `AuthService.verify` from `auth-service.ts`:
`if (!payload.token || payload.token !== this.token)` fail `invalid token`;
`if (this.password && payload.password !== this.password)` fail
`invalid password`; otherwise ok. -/
def verify (cfgPassword : Option String) (cfgToken : String) (payload : AuthPayload) : VerifyResult :=
  if !(strTruthy payload.token) || payload.token != some cfgToken then
    .fail "invalid token"
  else if strTruthy cfgPassword && payload.password != cfgPassword then
    .fail "invalid password"
  else
    .ok

/-! ## TerminalRuntime (`terminal-runtime.ts`)

The runtime owns at most one PTY process. Processes are identified by a
fresh `Nat` pid (JS object identity of `processRef`); the commands the
runtime issues to the outside world (spawn / kill / resize / write on a
process, plus the `attach` event emission) are recorded in an append-only
log so that theorems can speak about what was, or was not, sent to a PTY. -/

/-- An observable command issued by the `TerminalRuntime`. -/
inductive RtCmd
  | spawn (pid : Nat) (session : String)
  | kill (pid : Nat)
  | ptyResize (pid : Nat) (cols rows : Int)
  | ptyWrite (pid : Nat) (data : String)
  | emitAttach (session : String)
  deriving DecidableEq, Repr

/-- The mutable state of a `TerminalRuntime`: `process` is the current
`PtyProcess` (by pid), `session` the current session name, `lastDimensions`
the stored cols/rows, and `log` the observable command history. -/
structure RtState where
  process : Option Nat
  session : Option String
  lastCols : Int
  lastRows : Int
  nextPid : Nat
  log : List RtCmd
  deriving DecidableEq, Repr

/-- A fresh runtime: no process, no session, and
`lastDimensions = { cols: 80, rows: 24 }`. -/
def rtInit : RtState :=
  { process := none, session := none, lastCols := 80, lastRows := 24, nextPid := 0, log := [] }

/-- `TerminalRuntime.resize(cols, rows)`. The JS numbers are `Option ℚ`,
`none` standing for the non-finite values; the guard is
`!isFinite(cols) || !isFinite(rows) || cols < 2 || rows < 2`. On valid
input both values are `Math.floor`ed, stored as `lastDimensions`, and
applied to the current process if one exists (`this.process?.resize`). -/
def rtResize (st : RtState) (cols rows : Option ℚ) : RtState :=
  match cols, rows with
  | some c, some r =>
    if c < 2 ∨ r < 2 then st
    else
      let c2 := ⌊c⌋
      let r2 := ⌊r⌋
      match st.process with
      | some pid =>
        { st with lastCols := c2, lastRows := r2, log := st.log ++ [.ptyResize pid c2 r2] }
      | none => { st with lastCols := c2, lastRows := r2 }
  | _, _ => st

/-- `TerminalRuntime.attachToSession(session)`: no-op when the session is
unchanged and a process exists; otherwise kill the current process, spawn a
fresh one, apply `lastDimensions` to it, store it as current, and emit the
`attach` event. -/
def rtAttach (st : RtState) (session : String) : RtState :=
  if st.session = some session ∧ st.process.isSome then st
  else
    let st1 :=
      match st.process with
      | some pid => { st with process := none, log := st.log ++ [RtCmd.kill pid] }
      | none => st
    let pid := st1.nextPid
    { st1 with
      session := some session
      process := some pid
      nextPid := pid + 1
      log := st1.log ++
        [RtCmd.spawn pid session, RtCmd.ptyResize pid st.lastCols st.lastRows,
          RtCmd.emitAttach session] }

/-- `TerminalRuntime.write(data)`: forwarded to the current process, no-op
when none (`this.process?.write`). -/
def rtWrite (st : RtState) (data : String) : RtState :=
  match st.process with
  | some pid => { st with log := st.log ++ [.ptyWrite pid data] }
  | none => st

/-- The `onExit` handler installed in `attachToSession`: when process `pid`
exits, the runtime clears its current process only when it is still the
same process (`if (this.process === processRef)`). -/
def rtOnExit (st : RtState) (pid : Nat) : RtState :=
  if st.process = some pid then { st with process := none } else st

/-- `TerminalRuntime.shutdown()`: kill the current process and forget it. -/
def rtShutdown (st : RtState) : RtState :=
  match st.process with
  | some pid => { st with process := none, log := st.log ++ [RtCmd.kill pid] }
  | none => st

/-- Operations that can be performed on a runtime, used to describe its
reachable states. -/
inductive RtOp
  | attach (session : String)
  | write (data : String)
  | resize (cols rows : Option ℚ)
  | procExit (pid : Nat)
  | shutdown
  deriving Repr

/-- One runtime operation applied to a state. -/
def rtStep (st : RtState) : RtOp → RtState
  | .attach session => rtAttach st session
  | .write data => rtWrite st data
  | .resize cols rows => rtResize st cols rows
  | .procExit pid => rtOnExit st pid
  | .shutdown => rtShutdown st

/-- The runtime state after a sequence of operations from a fresh runtime. -/
def rtRun (ops : List RtOp) : RtState :=
  ops.foldl rtStep rtInit

/-! ## TmuxStateMonitor (`state-monitor.ts`)

`publishSnapshot(force)` captures the current `forceGeneration`, awaits
`buildSnapshot`, discards the result when the generation has moved, and
otherwise publishes when forced or when the serialized sessions differ from
the stored fingerprint. A snapshot is modelled as carrying the
canonical serialization of its sessions (`JSON.stringify(snapshot.sessions)`
is a pure function of the sessions, so the model carries its value), plus
the ignored `capturedAt` stamp. -/

/-- A state snapshot: `serialized` is `JSON.stringify(snapshot.sessions)`,
`stamp` the `capturedAt` value (ignored by change detection). -/
structure Snapshot where
  serialized : String
  stamp : Nat
  deriving DecidableEq, Repr

/-- Observable monitor state: the generation counter, the stored fingerprint
(`lastSerializedState`), the snapshots delivered to `onUpdate` (most recent
first), and the errors delivered to `onError` (most recent first). -/
structure MonState where
  forceGeneration : Nat
  lastSerializedState : Option String
  delivered : List Snapshot
  errors : List String
  deriving DecidableEq, Repr

/-- A fresh monitor. -/
def monInit : MonState :=
  { forceGeneration := 0, lastSerializedState := none, delivered := [], errors := [] }

/-- Events of a monitor execution, at the granularity of the two state
mutations of `state-monitor.ts`:

* `forceStart`: the synchronous prefix of `forcePublish` — cancel the
  pending tick and bump `forceGeneration` (`++this.forceGeneration`);
* `buildDone gen force res`: an in-flight `publishSnapshot(force)` that
  captured `gen` at its build start (`const gen = this.forceGeneration`)
  has its `buildSnapshot` promise resolve with `res`.

The real system only produces `buildDone` events whose `gen` was read from
the counter at build start; the model lets `gen` be arbitrary, which only
enlarges the set of behaviors the theorems cover. On a build error both
call sites (`tick` and `forcePublish`) catch and route the error to
`onError` once. -/
inductive MonEv
  | forceStart
  | buildDone (gen : Nat) (force : Bool) (res : Except String Snapshot)
  deriving Repr

/-- One monitor event applied to a state, following `publishSnapshot`:
discard when the captured generation is no longer current, otherwise
publish when forced or changed, updating the fingerprint exactly when
delivering. -/
def monStep (st : MonState) : MonEv → MonState
  | .forceStart => { st with forceGeneration := st.forceGeneration + 1 }
  | .buildDone gen force res =>
    match res with
    | .error e => { st with errors := e :: st.errors }
    | .ok snap =>
      if gen ≠ st.forceGeneration then st
      else if force = true ∨ some snap.serialized ≠ st.lastSerializedState then
        { st with lastSerializedState := some snap.serialized, delivered := snap :: st.delivered }
      else st

/-- The monitor state after a sequence of events from a fresh monitor. -/
def monRun (evs : List MonEv) : MonState :=
  evs.foldl monStep monInit

/-- Invariant: the stored fingerprint is exactly the serialization of the
last snapshot delivered to `onUpdate` (and `none` before any delivery). -/
def fingerprintInv (st : MonState) : Prop :=
  st.lastSerializedState = st.delivered.head?.map Snapshot.serialized

/-- The outcome of one whole `forcePublish` or `tick` call: the resulting
monitor state, and what the call throws to its caller (`none` when it
resolves normally). -/
structure CallOutcome where
  state : MonState
  thrown : Option String
  deriving DecidableEq, Repr

/-- A whole `forcePublish` call whose `buildSnapshot` resolves with
`buildRes`, run without interleaved calls: cancel the tick and bump the
generation, then `try { await this.publishSnapshot(true) } catch (error)
{ this.onError(...) }` — the catch block delivers a build error to
`onError` and the call itself resolves normally. -/
def forcePublishRun (st : MonState) (buildRes : Except String Snapshot) : CallOutcome :=
  let st1 := monStep st .forceStart
  { state := monStep st1 (.buildDone st1.forceGeneration true buildRes), thrown := none }

/-- A whole `tick` call whose `buildSnapshot` resolves with `buildRes`, run
without interleaved calls: `try { await this.publishSnapshot(false) }
catch (error) { this.onError(...) }`. -/
def tickRun (st : MonState) (buildRes : Except String Snapshot) : CallOutcome :=
  { state := monStep st (.buildDone st.forceGeneration false buildRes), thrown := none }

/-! ## Broker attach flow (`server.ts`)

`attachControlToBaseSession` and `ensureAttachedSession`, embedded as
functions of the current control context and of the outcomes of the
gateway calls they make. Each gateway call site gets one `Except`-valued
outcome; a thrown gateway error aborts the function at that point and is
returned as `err` (in `server.ts` it propagates to the message handler,
which replies with an `error` message). The best-effort
`tryRestoreClientView` only issues further gateway calls and swallows its
own failures, so it does not affect the fields and actions modelled here. -/

/-- A `TmuxSessionSummary` as the broker sees it. -/
structure SessSum where
  name : String
  attached : Bool
  windows : Nat
  deriving DecidableEq, Repr, Inhabited

/-- The per-control-socket `ControlContext` fields the attach flow touches.
`runtime` records whether a `TerminalRuntime` object exists;
`runtimeSession` is the session its PTY is attached to, when one was
spawned. -/
structure Ctx where
  authed : Bool
  clientId : String
  runtime : Bool
  runtimeSession : Option String
  attachedSession : Option String
  baseSession : Option String
  deriving DecidableEq, Repr

/-- A control context as created on WebSocket accept. -/
def ctxInit : Ctx :=
  { authed := false, clientId := "", runtime := false, runtimeSession := none,
    attachedSession := none, baseSession := none }

/-- Externally visible actions of the attach flow. -/
inductive Act
  | createSession (name : String)
  | createGrouped (name target : String)
  | killSession (name : String)
  | spawnPty (session : String)
  | emitPicker (sessions : List SessSum)
  | emitAttached (session : String)
  | emitError (message : String)
  deriving DecidableEq, Repr

/-- `"tmux-mobile-client-" + clientId` (`buildMobileSessionName`). -/
def mobileNameOf (clientId : String) : String :=
  "tmux-mobile-client-" ++ clientId

/-- `isManagedMobileSession`: name starts with the mobile prefix literal. -/
def isManagedMobileSession (name : String) : Bool :=
  name.startsWith "tmux-mobile-client-"

/-- Gateway-call outcomes consumed by one `attachControlToBaseSession`
call: its own `listSessions`, the optional `killSession(mobile)`, and the
optional `createGroupedSession(mobile, base)`. -/
structure AttachEnv where
  listSessionsRes : Except String (List SessSum)
  killRes : Except String Unit
  createGroupedRes : Except String Unit
  deriving Repr

/-- Result of an attach-flow call: the updated context, the actions
performed, and the error it throws, if any. -/
structure AttachOut where
  ctx : Ctx
  acts : List Act
  err : Option String
  deriving DecidableEq, Repr

/-- `attachControlToBaseSession(context, baseSession)` from `server.ts`:
create the runtime object if absent (`getOrCreateRuntime` runs first and
unconditionally), list sessions, kill and recreate the grouped mobile
session as needed, set `baseSession`/`attachedSession`, attach the runtime
(spawning a PTY unless it is already attached to the mobile session), and
emit `attached`. -/
def attachControlToBaseSession (env : AttachEnv) (ctx0 : Ctx) (base : String) : AttachOut :=
  let ctx := { ctx0 with runtime := true }
  let mobile := mobileNameOf ctx.clientId
  match env.listSessionsRes with
  | .error e => { ctx := ctx, acts := [], err := some e }
  | .ok sessions =>
    let hasMobile := sessions.any (fun s => s.name = mobile)
    let needsRecreate := hasMobile && strTruthy ctx.baseSession && (ctx.baseSession != some base)
    let killActs := if needsRecreate then [Act.killSession mobile] else []
    match (if needsRecreate then env.killRes else .ok ()) with
    | .error e => { ctx := ctx, acts := killActs, err := some e }
    | .ok _ =>
      let needsCreate := !hasMobile || needsRecreate
      let createActs := if needsCreate then [Act.createGrouped mobile base] else []
      match (if needsCreate then env.createGroupedRes else .ok ()) with
      | .error e => { ctx := ctx, acts := killActs ++ createActs, err := some e }
      | .ok _ =>
        let spawnActs := if ctx.runtimeSession ≠ some mobile then [Act.spawnPty mobile] else []
        { ctx := { ctx with
            baseSession := some base
            attachedSession := some mobile
            runtimeSession := some mobile }
          acts := killActs ++ createActs ++ spawnActs ++ [Act.emitAttached mobile]
          err := none }

/-- Gateway-call outcomes consumed by one `ensureAttachedSession` call: its
own `listSessions`, the optional `createSession(defaultSession)`, and the
outcomes for the nested `attachControlToBaseSession`. -/
structure EnsureEnv where
  listSessionsRes : Except String (List SessSum)
  createSessionRes : Except String Unit
  attachEnv : AttachEnv
  deriving Repr

/-- The session-picker filter of `ensureAttachedSession`: drop every
session whose name starts with the mobile prefix. -/
def filterNonMobile (sessions : List SessSum) : List SessSum :=
  sessions.filter (fun s => !(isManagedMobileSession s.name))

/-- `ensureAttachedSession(context, forceSession?)` from `server.ts`:
forced attach when requested; otherwise list and filter sessions, prefer a
remembered base session when it still exists, create the default session
when none remain, attach directly when exactly one remains, and emit
`session_picker` otherwise. -/
def ensureAttachedSession (env : EnsureEnv) (defaultSession : String) (ctx : Ctx)
    (forceSession : Option String) : AttachOut :=
  match forceSession with
  | some fs => attachControlToBaseSession env.attachEnv ctx fs
  | none =>
    match env.listSessionsRes with
    | .error e => { ctx := ctx, acts := [], err := some e }
    | .ok all =>
      let sessions := filterNonMobile all
      let preferred :=
        if strTruthy ctx.baseSession then
          sessions.find? (fun s => some s.name = ctx.baseSession)
        else none
      match preferred with
      | some p => attachControlToBaseSession env.attachEnv ctx p.name
      | none =>
        if sessions.length = 0 then
          match env.createSessionRes with
          | .error e => { ctx := ctx, acts := [Act.createSession defaultSession], err := some e }
          | .ok _ =>
            let out := attachControlToBaseSession env.attachEnv ctx defaultSession
            { out with acts := Act.createSession defaultSession :: out.acts }
        else if sessions.length = 1 then
          attachControlToBaseSession env.attachEnv ctx sessions.headI.name
        else
          { ctx := ctx, acts := [Act.emitPicker sessions], err := none }

/-- The guard shared by the mutations that require an attached session
(`new_window`, `select_window`, `kill_window`): with no attached session
they throw `no attached session`; otherwise the gateway call outcome is
the result. -/
def mutationNeedingAttached (ctx : Ctx) (gatewayRes : Except String Unit) : Except String Unit :=
  if !(strTruthy ctx.attachedSession) then .error "no attached session" else gatewayRes

/-- Per-context lifecycle events of a control socket, as far as the
`runtime` / `attachedSession` fields are concerned. -/
inductive CtxEv
  | authOk (clientId : String) (remembered : Option String) (env : EnsureEnv) (defaultSession : String)
  | selectSession (env : AttachEnv) (session : String)
  | mutationEv (gatewayRes : Except String Unit)
  | closeEv
  deriving Repr

/-- One control-socket event applied to a context, following the control
message handler of `server.ts`:

* `authOk`: a successful `auth` — adopt the client id, load the remembered
  base session from reconnect state, mark authenticated, run
  `ensureAttachedSession` and report its error (if any) as an `error`
  message without dropping authentication;
* `selectSession`: the `select_session` mutation (authenticated only);
* `mutationEv`: a mutation that needs `attachedSession` (its error is
  reported, the context is unchanged);
* `closeEv`: `shutdownControlContext` — close data sockets, shut down and
  forget the runtime, kill the mobile session, clear `attachedSession`. -/
def ctxStep (c : Ctx) : CtxEv → Ctx
  | .authOk clientId remembered env defaultSession =>
    let c1 := { c with clientId := clientId, baseSession := remembered, authed := true }
    (ensureAttachedSession env defaultSession c1 none).ctx
  | .selectSession env session =>
    if c.authed then (attachControlToBaseSession env c session).ctx else c
  | .mutationEv _ => c
  | .closeEv => { c with runtime := false, runtimeSession := none, attachedSession := none }

/-- The context after a sequence of events from a fresh control socket. -/
def ctxRun (evs : List CtxEv) : Ctx :=
  evs.foldl ctxStep ctxInit

/-! ## Data-plane socket handler (`server.ts`, terminal endpoint) -/

/-- A JSON value in a message field, as far as `typeof value === "string"`
can distinguish it. -/
inductive JsVal
  | str (s : String)
  | nonStr
  deriving DecidableEq, Repr

/-- `normalizeClientId` from `server.ts`: non-strings are rejected; the
value is trimmed; an empty or longer-than-128-characters result is
rejected. -/
def normalizeClientId : Option JsVal → Option String
  | some (.str v) =>
    let trimmed := String.mk (trimChars v.toList)
    if trimmed = "" ∨ trimmed.length > 128 then none else some trimmed
  | _ => none

/-- The fields of an inbound `auth` message on the data socket. -/
structure AuthMsg where
  token : Option String
  password : Option String
  clientId : Option JsVal
  deriving DecidableEq, Repr

/-- The result of `parseClientMessage` on a text frame: `authMsg` for a
JSON object with `type: "auth"`, `otherType` for a JSON object with some
other string `type`. `none` stands for malformed JSON or a missing string
`type`. -/
inductive ParsedMsg
  | authMsg (m : AuthMsg)
  | otherType (t : String)
  deriving DecidableEq, Repr

/-- An inbound frame on the data socket: a binary frame, or a text frame
with its raw bytes paired with what `parseClientMessage` yields on them. -/
inductive TermFrame
  | binaryFrame (data : String)
  | textFrame (raw : String) (parsed : Option ParsedMsg)
  deriving DecidableEq, Repr

/-- The single effect the unauthenticated branch of the terminal socket
message handler produces. -/
inductive TermEffect
  | closeSock (code : Nat) (reason : String)
  | bindClient (clientId : String)
  | writePty (data : String)
  deriving DecidableEq, Repr

/-- The `!ctx.authed` branch of the terminal socket `message` handler in
`server.ts`: binary frames close `4001 "auth required"`; text frames that
are not a JSON `auth` message close `4001 "auth required"`; a rejected
`clientId`, failed credential verification, or missing authenticated
control context close `4001 "unauthorized"`; otherwise the socket is bound
to the control context. `lookup` is `getControlContext`: whether an
authenticated control context with the given client id exists. -/
def handleTerminalUnauthed (cfgPassword : Option String) (cfgToken : String)
    (lookup : String → Bool) (frame : TermFrame) : TermEffect :=
  match frame with
  | .binaryFrame _ => .closeSock 4001 "auth required"
  | .textFrame _ parsed =>
    match parsed with
    | some (.authMsg m) =>
      match normalizeClientId m.clientId with
      | none => .closeSock 4001 "unauthorized"
      | some clientId =>
        match verify cfgPassword cfgToken { token := m.token, password := m.password } with
        | .fail _ => .closeSock 4001 "unauthorized"
        | .ok =>
          if lookup clientId then .bindClient clientId
          else .closeSock 4001 "unauthorized"
    | _ => .closeSock 4001 "auth required"

/-! ## Broker socket bookkeeping and fan-out (`server.ts`)

The state the broker keeps across both WebSocket endpoints: the set of
control contexts and the set of data contexts, with the bindings between
them. Contexts are identified by fresh `Nat` ids (JS object identity);
`boundTo` is the `DataContext.controlContext` back-reference and `socks`
the `ControlContext.terminalClients` set. The `data` handler installed by
`getOrCreateRuntime` broadcasts a PTY chunk to the bound data sockets of
its own context only, filtered by `authed` and an open socket. -/

/-- A `DataContext`: socket id, authentication flag, and the control
context it is bound to. -/
structure DSock where
  sid : Nat
  authed : Bool
  boundTo : Option Nat
  deriving DecidableEq, Repr

/-- The bookkeeping fields of a `ControlContext`: object id, client id,
authentication flag, and bound data socket ids (`terminalClients`). -/
structure CCtx where
  cid : Nat
  clientId : String
  authed : Bool
  socks : List Nat
  deriving DecidableEq, Repr

/-- The broker's socket bookkeeping state. -/
structure Broker where
  controls : List CCtx
  datas : List DSock
  nextCid : Nat
  nextSid : Nat
  deriving DecidableEq, Repr

/-- The broker before any connection. -/
def brokerInit : Broker :=
  { controls := [], datas := [], nextCid := 0, nextSid := 0 }

/-- `getControlContext(clientId)`: the first authenticated control context
holding the client id. -/
def findCtl (b : Broker) (clientId : String) : Option CCtx :=
  b.controls.find? (fun c => c.authed && c.clientId = clientId)

/-- `shutdownControlContext` plus `controlClients.delete`: the context's
bound data sockets are closed (and their close handlers drop them), its
socket set is cleared, and the context itself is removed. -/
def ctlShutdown (b : Broker) (cid : Nat) : Broker :=
  match b.controls.find? (fun c => c.cid = cid) with
  | none => b
  | some c =>
    { b with
      controls := b.controls.filter (fun x => x.cid ≠ cid)
      datas := b.datas.filter (fun d => !(c.socks.contains d.sid)) }

/-- Events on the broker's socket bookkeeping:

* `ctlConnect` / `dataConnect`: a WebSocket accept creating a fresh
  context;
* `ctlAuth cid clientId`: the control context `cid` (still
  unauthenticated) passes `AuthService.verify` and adopts `clientId`,
  evicting any other authenticated context holding the same id;
* `ctlClose cid`: the control socket closes;
* `dataAuth sid clientId`: the (unauthenticated) data socket `sid` sends a
  valid `auth` that passes verification with this normalized client id;
  it binds to `getControlContext(clientId)` when that exists and is closed
  otherwise;
* `dataClose sid`: the data socket closes and is unlinked from its control
  context. -/
inductive BEv
  | ctlConnect
  | ctlAuth (cid : Nat) (clientId : String)
  | ctlClose (cid : Nat)
  | dataConnect
  | dataAuth (sid : Nat) (clientId : String)
  | dataClose (sid : Nat)
  deriving Repr

/-- One broker event applied to the bookkeeping state. -/
def brokerStep (b : Broker) : BEv → Broker
  | .ctlConnect =>
    { b with
      controls := b.controls ++ [{ cid := b.nextCid, clientId := "", authed := false, socks := [] }]
      nextCid := b.nextCid + 1 }
  | .ctlAuth cid clientId =>
    match b.controls.find? (fun c => c.cid = cid) with
    | none => b
    | some me =>
      if me.authed then b
      else
        let b1 :=
          match b.controls.find? (fun c => c.cid ≠ cid && c.authed && c.clientId = clientId) with
          | some existing => ctlShutdown b existing.cid
          | none => b
        { b1 with
          controls := b1.controls.map (fun x =>
            if x.cid = cid then { x with clientId := clientId, authed := true } else x) }
  | .ctlClose cid => ctlShutdown b cid
  | .dataConnect =>
    { b with
      datas := b.datas ++ [{ sid := b.nextSid, authed := false, boundTo := none }]
      nextSid := b.nextSid + 1 }
  | .dataAuth sid clientId =>
    match b.datas.find? (fun d => d.sid = sid) with
    | none => b
    | some d =>
      if d.authed then b
      else
        match findCtl b clientId with
        | none => { b with datas := b.datas.filter (fun x => x.sid ≠ sid) }
        | some c =>
          { b with
            datas := b.datas.map (fun x =>
              if x.sid = sid then { x with authed := true, boundTo := some c.cid } else x)
            controls := b.controls.map (fun x =>
              if x.cid = c.cid then { x with socks := sid :: x.socks } else x) }
  | .dataClose sid =>
    match b.datas.find? (fun d => d.sid = sid) with
    | none => b
    | some d =>
      { b with
        datas := b.datas.filter (fun x => x.sid ≠ sid)
        controls :=
          match d.boundTo with
          | some cid =>
            b.controls.map (fun x =>
              if x.cid = cid then { x with socks := x.socks.filter (fun s => s ≠ sid) } else x)
          | none => b.controls }

/-- The broker state after a sequence of events. -/
def brokerRun (evs : List BEv) : Broker :=
  evs.foldl brokerStep brokerInit

/-- The `data` handler installed by `getOrCreateRuntime` for a context: a
PTY chunk of this context's runtime is sent to the data sockets in
`context.terminalClients` that are authenticated and open. Live sockets in
`datas` are open; the returned list is the socket ids the chunk is written
to. -/
def dataTargets (b : Broker) (c : CCtx) : List Nat :=
  c.socks.filter (fun sid =>
    match b.datas.find? (fun d => d.sid = sid) with
    | some d => d.authed
    | none => false)

/-- Well-formedness of the broker's socket bookkeeping: context and socket
ids are below their counters and pairwise distinct, and every socket id in
a control context's `terminalClients` set belongs to a live, authenticated
data socket whose back-reference points at that very context. -/
structure BrokerWF (b : Broker) : Prop where
  cidLt : ∀ c ∈ b.controls, c.cid < b.nextCid
  cidDistinct : b.controls.Pairwise (fun x y => x.cid ≠ y.cid)
  sidLt : ∀ d ∈ b.datas, d.sid < b.nextSid
  sidDistinct : b.datas.Pairwise (fun x y => x.sid ≠ y.sid)
  sockBound : ∀ c ∈ b.controls, ∀ sid ∈ c.socks,
    ∃ d ∈ b.datas, d.sid = sid ∧ d.authed = true ∧ d.boundTo = some c.cid

/-!
# Theorems
-/

/-! ## C1: window format / parse round-trip -/

/-- **C1** (round-trip failure witness): the gateway's window format string
`WINDOW_FMT` emits four tab-separated fields (index, name, active,
paneCount) while `parseWindows` destructures five (index, name, active,
zoomed, paneCount). Formatting the window `index 0, name "bash", active,
not zoomed, 2 panes` and parsing the result therefore reads the zoom flag
from the pane-count column and the pane count from a missing fifth field,
yielding `paneCount = NaN` instead of `2`: the round-trip
`parse (format ws) = ws` fails. -/
theorem window_format_parse_no_roundtrip :
    parseWindows (formatWindowOutput [⟨0, "bash", true, false, 2⟩]) =
      [⟨some 0, some "bash", true, false, none⟩] ∧
    parseWindows (formatWindowOutput [⟨0, "bash", true, false, 2⟩]) ≠
      [windowRecOf ⟨0, "bash", true, false, 2⟩] := by
  exact ⟨by decide, by decide⟩

/-! ## C7: AuthService.verify -/

/-- **C7**: over the configurations the program actually builds (the token
is a 24-character base64url string, hence non-empty, and a configured
password is a non-empty string), `AuthService.verify` fails with
`invalid token` exactly when the token is missing or differs from the
configured token; otherwise it fails with `invalid password` exactly when
a password is configured and the supplied value differs; otherwise it
succeeds. -/
theorem verify_matches_spec (cfgPassword : Option String) (cfgToken : String)
    (payload : AuthPayload) (hT : cfgToken ≠ "") (hP : ∀ p, cfgPassword = some p → p ≠ "") :
    (verify cfgPassword cfgToken payload = .fail "invalid token" ↔
      (payload.token = none ∨ payload.token ≠ some cfgToken)) ∧
    (verify cfgPassword cfgToken payload = .fail "invalid password" ↔
      (payload.token = some cfgToken ∧ ∃ p, cfgPassword = some p ∧ payload.password ≠ some p)) ∧
    (verify cfgPassword cfgToken payload = .ok ↔
      (payload.token = some cfgToken ∧ ∀ p, cfgPassword = some p → payload.password = some p)) := by
  obtain ⟨tok, pw⟩ := payload
  by_cases ht : tok = some cfgToken
  · subst ht
    have h1 : (!(strTruthy (some cfgToken)) || some cfgToken != some cfgToken) = false := by
      simp [strTruthy, hT]
    cases cfgPassword with
    | none =>
      simp [verify, h1, strTruthy, hT]
    | some p =>
      have hp : p ≠ "" := hP p rfl
      by_cases hpw : pw = some p
      · subst hpw
        simp [verify, h1, strTruthy, hp, hT]
      · simp [verify, h1, strTruthy, hp, hpw, hT]
  · have hfail : verify cfgPassword cfgToken ⟨tok, pw⟩ = .fail "invalid token" := by
      cases tok with
      | none => simp [verify, strTruthy]
      | some t =>
        rcases eq_or_ne t "" with h | h
        · subst h
          simp [verify, strTruthy]
        · have : (some t != some cfgToken) = true := by
            simp
            intro hc
            exact ht (by rw [hc])
          simp [verify, strTruthy, h, this]
    simp [hfail, ht]

/-- Witness for C7: with password `"pw"` and token `"tok"` configured, a
payload carrying the right token and password verifies successfully. -/
theorem verify_matches_spec_witness :
    verify (some "pw") "tok" { token := some "tok", password := some "pw" } = VerifyResult.ok :=
  ((verify_matches_spec (some "pw") "tok" { token := some "tok", password := some "pw" }
      (by decide) (fun p hp => by cases hp; decide)).2.2).mpr
    ⟨rfl, fun p hp => by cases hp; rfl⟩

/-! ## C5: error routing of forcePublish and tick -/

/-- **C5 amended**: a failure of `buildSnapshot` inside `forcePublish` is
*not* rethrown to the caller: like a tick failure, it is caught and
delivered exactly once through `onError`, leaving the delivered snapshots
and the stored fingerprint unchanged, and the call resolves normally. -/
theorem force_publish_and_tick_route_errors (st : MonState) (e : String) :
    (forcePublishRun st (.error e)).thrown = none ∧
    (forcePublishRun st (.error e)).state.errors = e :: st.errors ∧
    (forcePublishRun st (.error e)).state.delivered = st.delivered ∧
    (forcePublishRun st (.error e)).state.lastSerializedState = st.lastSerializedState ∧
    (tickRun st (.error e)).thrown = none ∧
    (tickRun st (.error e)).state.errors = e :: st.errors ∧
    (tickRun st (.error e)).state.delivered = st.delivered := by
  simp [forcePublishRun, tickRun, monStep]

/-- Counterexample for C5 as stated: at a fresh monitor whose
`buildSnapshot` rejects with `"boom"`, the `forcePublish` call does not
reject — it resolves normally (`thrown = none`) and the error goes to
`onError` instead. -/
theorem force_publish_rejects_counterexample :
    (forcePublishRun monInit (.error "boom")).thrown = none ∧
    ¬((forcePublishRun monInit (.error "boom")).thrown = some "boom") ∧
    (forcePublishRun monInit (.error "boom")).state.errors = ["boom"] := by
  decide

/-! ## C2: staleness protection and the fingerprint invariant -/

/-- **C2**: a build that captured generation `g` and resolves after the
force-generation counter has advanced beyond `g` changes nothing: its
snapshot is not delivered to `onUpdate` and the stored fingerprint is
untouched. Moreover, along every monitor execution the stored fingerprint
equals the serialization of the last snapshot delivered to `onUpdate`. -/
theorem monitor_staleness_and_fingerprint :
    (∀ (st : MonState) (g : Nat) (force : Bool) (snap : Snapshot),
      g < st.forceGeneration → monStep st (.buildDone g force (.ok snap)) = st) ∧
    (∀ evs : List MonEv, fingerprintInv (monRun evs)) := by
  constructor
  · intro st g force snap h
    simp only [monStep]
    rw [if_pos (Nat.ne_of_lt h)]
  · intro evs
    have key : ∀ (st : MonState), fingerprintInv st → ∀ ev, fingerprintInv (monStep st ev) := by
      intro st h ev
      cases ev with
      | forceStart => simpa [monStep, fingerprintInv] using h
      | buildDone g force res =>
        cases res with
        | error e => simpa [monStep, fingerprintInv] using h
        | ok snap =>
          by_cases hg : g = st.forceGeneration
          · by_cases hpub : force = true ∨ some snap.serialized ≠ st.lastSerializedState
            · simp [monStep, hg, hpub, fingerprintInv]
            · simpa [monStep, hg, hpub, fingerprintInv] using h
          · simpa [monStep, hg, fingerprintInv] using h
    have run : ∀ (l : List MonEv) (st : MonState),
        fingerprintInv st → fingerprintInv (l.foldl monStep st) := by
      intro l
      induction l with
      | nil => intro st h; simpa using h
      | cons ev tl ih => intro st h; exact ih _ (key st h ev)
    exact run evs monInit (by simp [fingerprintInv, monInit])

/-- Witness for C2: a build that captured generation `1` resolving while
the counter stands at `2` is dropped without touching the fingerprint, and
the fingerprint invariant holds after a force round-trip. -/
theorem monitor_staleness_witness :
    monStep { forceGeneration := 2, lastSerializedState := some "x", delivered := [], errors := [] }
        (.buildDone 1 true (.ok ⟨"y", 0⟩)) =
      { forceGeneration := 2, lastSerializedState := some "x", delivered := [], errors := [] } ∧
    fingerprintInv (monRun [MonEv.forceStart, MonEv.buildDone 1 true (.ok ⟨"s1", 5⟩)]) :=
  ⟨monitor_staleness_and_fingerprint.1
      { forceGeneration := 2, lastSerializedState := some "x", delivered := [], errors := [] }
      1 true ⟨"y", 0⟩ (by decide),
    monitor_staleness_and_fingerprint.2 [MonEv.forceStart, MonEv.buildDone 1 true (.ok ⟨"s1", 5⟩)]⟩

/-! ## C8: resize guard and dimension replay on attach -/

/-- **C8**: `resize(cols, rows)` with a non-finite argument or one below 2
leaves the runtime state — including the issued-command log — unchanged;
a valid call floors both values, stores them as the last-known dimensions,
and applies them to the current process exactly when one exists. Every
attach that proceeds to spawn replays the stored dimensions on the new
process before the attach completes (before the `attach` event), and a
fresh runtime stores the 80×24 default. -/
theorem resize_guard_and_attach_replay :
    (∀ (st : RtState) (cols rows : Option ℚ),
      (cols = none ∨ rows = none ∨ (∃ c, cols = some c ∧ c < 2) ∨ (∃ r, rows = some r ∧ r < 2)) →
      rtResize st cols rows = st) ∧
    (∀ (st : RtState) (c r : ℚ), 2 ≤ c → 2 ≤ r →
      (rtResize st (some c) (some r)).lastCols = ⌊c⌋ ∧
      (rtResize st (some c) (some r)).lastRows = ⌊r⌋ ∧
      (∀ pid, st.process = some pid →
        (rtResize st (some c) (some r)).log = st.log ++ [RtCmd.ptyResize pid ⌊c⌋ ⌊r⌋]) ∧
      (st.process = none → (rtResize st (some c) (some r)).log = st.log)) ∧
    (∀ (st : RtState) (session : String), ¬(st.session = some session ∧ st.process.isSome) →
      ∃ pid pre, (rtAttach st session).process = some pid ∧
        (rtAttach st session).log =
          st.log ++ pre ++ [RtCmd.spawn pid session, RtCmd.ptyResize pid st.lastCols st.lastRows,
            RtCmd.emitAttach session]) ∧
    rtInit.lastCols = 80 ∧ rtInit.lastRows = 24 := by
  refine ⟨?_, ?_, ?_, rfl, rfl⟩
  · intro st cols rows h
    rcases h with h | h | ⟨c, hc, hlt⟩ | ⟨r, hr, hlt⟩
    · subst h; cases rows <;> simp [rtResize]
    · subst h; cases cols <;> simp [rtResize]
    · subst hc
      cases rows with
      | none => simp [rtResize]
      | some r => simp [rtResize, if_pos (Or.inl hlt)]
    · subst hr
      cases cols with
      | none => simp [rtResize]
      | some c => simp [rtResize, if_pos (Or.inr hlt)]
  · intro st c r hc hr
    have hcond : ¬(c < 2 ∨ r < 2) := not_or.mpr ⟨not_lt.mpr hc, not_lt.mpr hr⟩
    cases hp : st.process with
    | some pid =>
      refine ⟨?_, ?_, ?_, ?_⟩ <;> simp [rtResize, hcond, hp]
    | none =>
      refine ⟨?_, ?_, ?_, ?_⟩ <;> simp [rtResize, hcond, hp]
  · intro st session h
    cases hp : st.process with
    | some pid =>
      have hs : ¬st.session = some session := fun hss => h ⟨hss, by simp [hp]⟩
      exact ⟨st.nextPid, [RtCmd.kill pid], by simp [rtAttach, hs, hp],
        by simp [rtAttach, hs, hp]⟩
    | none =>
      exact ⟨st.nextPid, [], by simp [rtAttach, hp], by simp [rtAttach, hp]⟩

/-- Witness for C8: an invalid resize (`NaN`, 5) is ignored; a valid
140×50 resize on an attached runtime is stored and applied; an attach on a
fresh runtime replays the 80×24 defaults before emitting `attach`. -/
theorem resize_guard_witness :
    rtResize (rtRun [RtOp.attach "main"]) none (some 5) = rtRun [RtOp.attach "main"] ∧
    (rtResize (rtRun [RtOp.attach "main"]) (some 140) (some 50)).lastCols = 140 ∧
    (rtResize (rtRun [RtOp.attach "main"]) (some 140) (some 50)).log =
      (rtRun [RtOp.attach "main"]).log ++ [RtCmd.ptyResize 0 140 50] ∧
    (∃ pid pre, (rtAttach rtInit "main").process = some pid ∧
      (rtAttach rtInit "main").log =
        rtInit.log ++ pre ++ [RtCmd.spawn pid "main", RtCmd.ptyResize pid rtInit.lastCols
          rtInit.lastRows, RtCmd.emitAttach "main"]) := by
  refine ⟨?_, ?_, ?_, ?_⟩
  · exact resize_guard_and_attach_replay.1 (rtRun [RtOp.attach "main"]) none (some 5) (Or.inl rfl)
  · have h := (resize_guard_and_attach_replay.2.1 (rtRun [RtOp.attach "main"]) 140 50
      (by decide) (by decide)).1
    rw [h]; decide
  · have h := (resize_guard_and_attach_replay.2.1 (rtRun [RtOp.attach "main"]) 140 50
      (by decide) (by decide)).2.2.1 0 (by decide)
    rw [h]; decide
  · exact resize_guard_and_attach_replay.2.2.1 rtInit "main" (by decide)

/-! ## C10: exit of a replaced process does not detach the runtime -/

/-- Invariant of runtime executions: the current process id is below the
fresh-pid counter. -/
theorem rt_pid_lt (ops : List RtOp) :
    ∀ pid, (rtRun ops).process = some pid → pid < (rtRun ops).nextPid := by
  have key : ∀ (st : RtState), (∀ pid, st.process = some pid → pid < st.nextPid) →
      ∀ op, ∀ pid, (rtStep st op).process = some pid → pid < (rtStep st op).nextPid := by
    intro st h op pid
    cases op with
    | attach session =>
      by_cases hcnd : st.session = some session ∧ st.process.isSome
      · simpa [rtStep, rtAttach, hcnd] using h pid
      · simp only [rtStep, rtAttach, if_neg hcnd]
        cases hp : st.process with
        | some q =>
          simp [hp]
          intro he
          omega
        | none =>
          simp [hp]
          intro he
          omega
    | write data =>
      cases hp : st.process with
      | some q => intro he; simp [rtStep, rtWrite, hp] at he ⊢; exact he ▸ h q hp
      | none => simp [rtStep, rtWrite, hp]
    | resize cols rows =>
      rcases cols with _ | c <;> rcases rows with _ | r <;>
        try (simpa [rtStep, rtResize] using h pid)
      by_cases hlt : c < 2 ∨ r < 2
      · simpa [rtStep, rtResize, hlt] using h pid
      · cases hp : st.process with
        | some q =>
          simp [rtStep, rtResize, hlt, hp]
          intro he; exact he ▸ h q hp
        | none => simp [rtStep, rtResize, hlt, hp]
    | procExit q =>
      by_cases hq : st.process = some q
      · simp [rtStep, rtOnExit, hq]
      · simpa [rtStep, rtOnExit, hq] using h pid
    | shutdown =>
      cases hp : st.process <;> simp [rtStep, rtShutdown, hp]
  have run : ∀ (l : List RtOp) (st : RtState),
      (∀ pid, st.process = some pid → pid < st.nextPid) →
      ∀ pid, (l.foldl rtStep st).process = some pid → pid < (l.foldl rtStep st).nextPid := by
    intro l
    induction l with
    | nil => intro st h; simpa using h
    | cons op tl ih => intro st h; exact ih _ (key st h op)
  exact run ops rtInit (by simp [rtInit])

/-- **C10**: when `attachToSession` replaces the current PTY, the `onExit`
of the replaced process leaves the runtime untouched — only the process
the runtime currently holds can detach it — and writes and resizes after
the old process's exit still go to the new process. -/
theorem old_exit_does_not_detach (ops : List RtOp) (session : String) (oldPid : Nat)
    (h1 : (rtRun ops).process = some oldPid)
    (h2 : (rtRun ops).session ≠ some session) :
    ∃ newPid, newPid ≠ oldPid ∧
      (rtAttach (rtRun ops) session).process = some newPid ∧
      rtOnExit (rtAttach (rtRun ops) session) oldPid = rtAttach (rtRun ops) session ∧
      (∀ data, (rtWrite (rtOnExit (rtAttach (rtRun ops) session) oldPid) data).log =
        (rtAttach (rtRun ops) session).log ++ [RtCmd.ptyWrite newPid data]) ∧
      (∀ c r : ℚ, 2 ≤ c → 2 ≤ r →
        (rtResize (rtOnExit (rtAttach (rtRun ops) session) oldPid) (some c) (some r)).log =
          (rtAttach (rtRun ops) session).log ++ [RtCmd.ptyResize newPid ⌊c⌋ ⌊r⌋]) := by
  have hlt : oldPid < (rtRun ops).nextPid := rt_pid_lt ops oldPid h1
  have hc : ¬((rtRun ops).session = some session ∧ (rtRun ops).process.isSome) := by
    intro h; exact h2 h.1
  have hproc : (rtAttach (rtRun ops) session).process = some (rtRun ops).nextPid := by
    simp [rtAttach, h2, h1]
  have hne : (rtRun ops).nextPid ≠ oldPid := by omega
  have hexit : rtOnExit (rtAttach (rtRun ops) session) oldPid = rtAttach (rtRun ops) session := by
    simp [rtOnExit, hproc, hne]
  refine ⟨(rtRun ops).nextPid, hne, hproc, hexit, ?_, ?_⟩
  · intro data
    rw [hexit]
    simp [rtWrite, hproc]
  · intro c r hcge hrge
    have hcond : ¬(c < 2 ∨ r < 2) := not_or.mpr ⟨not_lt.mpr hcge, not_lt.mpr hrge⟩
    rw [hexit]
    simp [rtResize, hcond, hproc]

/-- Witness for C10: attach to `"a"`, then attach to `"b"` replacing pid 0;
the exit of pid 0 leaves the runtime holding the new process. -/
theorem old_exit_witness :
    (rtRun [RtOp.attach "a"]).process = some 0 ∧
    ∃ newPid, newPid ≠ 0 ∧
      (rtAttach (rtRun [RtOp.attach "a"]) "b").process = some newPid ∧
      rtOnExit (rtAttach (rtRun [RtOp.attach "a"]) "b") 0 = rtAttach (rtRun [RtOp.attach "a"]) "b" ∧
      (∀ data, (rtWrite (rtOnExit (rtAttach (rtRun [RtOp.attach "a"]) "b") 0) data).log =
        (rtAttach (rtRun [RtOp.attach "a"]) "b").log ++ [RtCmd.ptyWrite newPid data]) ∧
      (∀ c r : ℚ, 2 ≤ c → 2 ≤ r →
        (rtResize (rtOnExit (rtAttach (rtRun [RtOp.attach "a"]) "b") 0) (some c) (some r)).log =
          (rtAttach (rtRun [RtOp.attach "a"]) "b").log ++ [RtCmd.ptyResize newPid ⌊c⌋ ⌊r⌋]) :=
  ⟨by decide, old_exit_does_not_detach [RtOp.attach "a"] "b" 0 (by decide) (by decide)⟩

/-! ## Helper: a clean successful attach -/

/-- `attachControlToBaseSession` on a context whose mobile session does not
exist yet and whose runtime has no PTY, with all gateway calls succeeding:
it creates the grouped mobile session, spawns the PTY, records the base
and mobile sessions, and emits `attached`. -/
theorem attach_success_eq (env : AttachEnv) (ctx : Ctx) (base : String) (l : List SessSum)
    (h3 : env.listSessionsRes = .ok l)
    (h4 : env.createGroupedRes = .ok ())
    (h6 : ∀ s ∈ l, s.name ≠ mobileNameOf ctx.clientId)
    (h7 : ctx.runtimeSession = none) :
    attachControlToBaseSession env ctx base =
      { ctx := { ctx with
          runtime := true
          runtimeSession := some (mobileNameOf ctx.clientId)
          baseSession := some base
          attachedSession := some (mobileNameOf ctx.clientId) }
        acts := [Act.createGrouped (mobileNameOf ctx.clientId) base,
          Act.spawnPty (mobileNameOf ctx.clientId), Act.emitAttached (mobileNameOf ctx.clientId)]
        err := none } := by
  have hasMobile : (l.any (fun s => s.name = mobileNameOf ctx.clientId)) = false := by
    rw [List.any_eq_false]
    intro s hs
    simpa using h6 s hs
  simp [attachControlToBaseSession, h3, h4, hasMobile, h7]

/-! ## C6: ensureAttachedSession decision cases -/

/-- **C6**: with no forced session and no remembered base session matching
the filtered list, `ensureAttachedSession` first drops every session whose
name starts with `tmux-mobile-client-`; on an empty remainder it creates
the configured default session and attaches to it, on exactly one
remaining session it attaches to that session, and on more than one it
emits `session_picker` with the filtered list and does not attach — the
context is untouched and no PTY is spawned. (Gateway success and a fresh
mobile session are assumed for the two attaching cases.) -/
theorem ensure_attach_cases (env : EnsureEnv) (defaultSession : String) (ctx : Ctx)
    (all attachList : List SessSum)
    (h1 : env.listSessionsRes = .ok all)
    (h2 : ∀ s ∈ filterNonMobile all, some s.name ≠ ctx.baseSession)
    (h3 : env.attachEnv.listSessionsRes = .ok attachList)
    (h4 : env.attachEnv.createGroupedRes = .ok ())
    (h5 : env.createSessionRes = .ok ())
    (h6 : ∀ s ∈ attachList, s.name ≠ mobileNameOf ctx.clientId)
    (h7 : ctx.runtimeSession = none) :
    (filterNonMobile all = [] →
      ensureAttachedSession env defaultSession ctx none =
        { ctx := { ctx with
            runtime := true
            runtimeSession := some (mobileNameOf ctx.clientId)
            baseSession := some defaultSession
            attachedSession := some (mobileNameOf ctx.clientId) }
          acts := [Act.createSession defaultSession,
            Act.createGrouped (mobileNameOf ctx.clientId) defaultSession,
            Act.spawnPty (mobileNameOf ctx.clientId),
            Act.emitAttached (mobileNameOf ctx.clientId)]
          err := none }) ∧
    (∀ s, filterNonMobile all = [s] →
      ensureAttachedSession env defaultSession ctx none =
        { ctx := { ctx with
            runtime := true
            runtimeSession := some (mobileNameOf ctx.clientId)
            baseSession := some s.name
            attachedSession := some (mobileNameOf ctx.clientId) }
          acts := [Act.createGrouped (mobileNameOf ctx.clientId) s.name,
            Act.spawnPty (mobileNameOf ctx.clientId),
            Act.emitAttached (mobileNameOf ctx.clientId)]
          err := none }) ∧
    (1 < (filterNonMobile all).length →
      ensureAttachedSession env defaultSession ctx none =
        { ctx := ctx, acts := [Act.emitPicker (filterNonMobile all)], err := none }) := by
  have hpref : (if strTruthy ctx.baseSession then
      (filterNonMobile all).find? (fun s => some s.name = ctx.baseSession) else none) = none := by
    by_cases hb : strTruthy ctx.baseSession
    · rw [if_pos hb, List.find?_eq_none]
      intro s hs
      simpa using h2 s hs
    · rw [if_neg hb]
  refine ⟨?_, ?_, ?_⟩
  · intro hempty
    have hatt := attach_success_eq env.attachEnv ctx defaultSession attachList h3 h4 h6 h7
    simp only [ensureAttachedSession, h1, hempty, h5, hatt]
    simp only [hempty] at hpref
    simp [hpref]
  · intro s hone
    have hatt := attach_success_eq env.attachEnv ctx s.name attachList h3 h4 h6 h7
    have hs2 : some s.name ≠ ctx.baseSession := h2 s (by rw [hone]; exact List.mem_singleton_self s)
    simp only [ensureAttachedSession, h1, hone]
    simp [hatt, hs2, ite_self]
  · intro hlen
    simp only [ensureAttachedSession, h1]
    rw [hpref]
    rw [if_neg (by omega), if_neg (by omega)]

/-- Witness for C6: with two non-mobile sessions `work`/`dev` the broker
emits the picker and leaves the context untouched; with no sessions at all
it creates and attaches the default session `main`. -/
theorem ensure_attach_cases_witness :
    ensureAttachedSession
        { listSessionsRes := .ok [⟨"work", false, 1⟩, ⟨"dev", true, 2⟩]
          createSessionRes := .ok ()
          attachEnv := { listSessionsRes := .ok [], killRes := .ok (), createGroupedRes := .ok () } }
        "main" { ctxInit with authed := true, clientId := "c1" } none =
      { ctx := { ctxInit with authed := true, clientId := "c1" }
        acts := [Act.emitPicker [⟨"work", false, 1⟩, ⟨"dev", true, 2⟩]]
        err := none } ∧
    ensureAttachedSession
        { listSessionsRes := .ok []
          createSessionRes := .ok ()
          attachEnv := { listSessionsRes := .ok [], killRes := .ok (), createGroupedRes := .ok () } }
        "main" { ctxInit with authed := true, clientId := "c1" } none =
      { ctx := { ctxInit with
          authed := true
          clientId := "c1"
          runtime := true
          runtimeSession := some (mobileNameOf "c1")
          baseSession := some "main"
          attachedSession := some (mobileNameOf "c1") }
        acts := [Act.createSession "main", Act.createGrouped (mobileNameOf "c1") "main",
          Act.spawnPty (mobileNameOf "c1"), Act.emitAttached (mobileNameOf "c1")]
        err := none } :=
  ⟨(ensure_attach_cases
      { listSessionsRes := .ok [⟨"work", false, 1⟩, ⟨"dev", true, 2⟩]
        createSessionRes := .ok ()
        attachEnv := { listSessionsRes := .ok [], killRes := .ok (), createGroupedRes := .ok () } }
      "main" { ctxInit with authed := true, clientId := "c1" }
      [⟨"work", false, 1⟩, ⟨"dev", true, 2⟩] [] rfl (by decide) rfl rfl rfl
      (by intro s hs; simp at hs) rfl).2.2 (by decide),
    (ensure_attach_cases
      { listSessionsRes := .ok []
        createSessionRes := .ok ()
        attachEnv := { listSessionsRes := .ok [], killRes := .ok (), createGroupedRes := .ok () } }
      "main" { ctxInit with authed := true, clientId := "c1" }
      [] [] rfl (by decide) rfl rfl rfl
      (by intro s hs; simp at hs) rfl).1 (by decide)⟩

/-! ## C4: runtime versus attachedSession -/

/-- `getOrCreateRuntime` runs before any gateway call of
`attachControlToBaseSession`, so the returned context always holds a
runtime object — even on the error paths. -/
theorem attach_runtime_true (env : AttachEnv) (c : Ctx) (b : String) :
    (attachControlToBaseSession env c b).ctx.runtime = true := by
  simp only [attachControlToBaseSession]
  split
  · rfl
  · split
    · rfl
    · split
      · rfl
      · rfl

/-- When `attachControlToBaseSession` throws, the context is exactly the
input context with the runtime object created: in particular
`attachedSession` and `baseSession` are untouched. -/
theorem attach_err_ctx (env : AttachEnv) (c : Ctx) (b : String) (e : String)
    (h : (attachControlToBaseSession env c b).err = some e) :
    (attachControlToBaseSession env c b).ctx = { c with runtime := true } := by
  simp only [attachControlToBaseSession] at h ⊢
  split at h
  · rfl
  · split at h
    · rfl
    · split at h
      · rfl
      · simp at h

/-- `ensureAttachedSession` either leaves the context untouched (errors
before attaching, or the session picker) or produces the context and error
of an `attachControlToBaseSession` call. -/
theorem ensure_ctx_cases (env : EnsureEnv) (d : String) (c : Ctx) (fs : Option String) :
    (ensureAttachedSession env d c fs).ctx = c ∨
    ∃ b, (ensureAttachedSession env d c fs).ctx = (attachControlToBaseSession env.attachEnv c b).ctx ∧
      (ensureAttachedSession env d c fs).err = (attachControlToBaseSession env.attachEnv c b).err := by
  simp only [ensureAttachedSession]
  split
  · exact Or.inr ⟨_, rfl, rfl⟩
  · split
    · exact Or.inl rfl
    · split
      · exact Or.inr ⟨_, rfl, rfl⟩
      · split
        · split
          · exact Or.inl rfl
          · exact Or.inr ⟨_, rfl, rfl⟩
        · split
          · exact Or.inr ⟨_, rfl, rfl⟩
          · exact Or.inl rfl

/-- **C4 amended**: in every reachable context state, a set
`attachedSession` implies the runtime object exists; and after a failed
initial attach the context remains authenticated with no attached session
(so mutations needing one fail with `no attached session`) — but, against
the claimed equivalence, a runtime object may already exist at that point
(see the counterexample). -/
theorem attached_session_implies_runtime :
    (∀ evs : List CtxEv, (ctxRun evs).attachedSession.isSome → (ctxRun evs).runtime = true) ∧
    (∀ (clientId : String) (remembered : Option String) (env : EnsureEnv)
      (defaultSession e : String),
      (ensureAttachedSession env defaultSession
        { ctxInit with clientId := clientId, baseSession := remembered, authed := true }
        none).err = some e →
      (ctxStep ctxInit (.authOk clientId remembered env defaultSession)).authed = true ∧
      (ctxStep ctxInit (.authOk clientId remembered env defaultSession)).attachedSession = none ∧
      ∀ g, mutationNeedingAttached (ctxStep ctxInit (.authOk clientId remembered env defaultSession))
        g = .error "no attached session") := by
  constructor
  · intro evs
    have key : ∀ (c : Ctx), (c.attachedSession.isSome → c.runtime = true) →
        ∀ ev, ((ctxStep c ev).attachedSession.isSome → (ctxStep c ev).runtime = true) := by
      intro c h ev
      cases ev with
      | authOk clientId remembered env defaultSession =>
        rcases ensure_ctx_cases env defaultSession
            { c with clientId := clientId, baseSession := remembered, authed := true } none with
          hc | ⟨b, hctx, _⟩
        · intro hs
          simp only [ctxStep, hc] at hs ⊢
          exact h hs
        · intro hs
          simp only [ctxStep, hctx] at hs ⊢
          exact attach_runtime_true env.attachEnv _ b
      | selectSession env session =>
        by_cases ha : c.authed
        · intro hs
          simp only [ctxStep, if_pos ha] at hs ⊢
          exact attach_runtime_true env c session
        · intro hs
          simp only [ctxStep, if_neg ha] at hs ⊢
          exact h hs
      | mutationEv g => exact h
      | closeEv => simp [ctxStep]
    have run : ∀ (l : List CtxEv) (c : Ctx), (c.attachedSession.isSome → c.runtime = true) →
        ((l.foldl ctxStep c).attachedSession.isSome → (l.foldl ctxStep c).runtime = true) := by
      intro l
      induction l with
      | nil => intro c h; simpa using h
      | cons ev tl ih => intro c h; exact ih _ (key c h ev)
    exact run evs ctxInit (by simp [ctxInit])
  · intro clientId remembered env defaultSession e herr
    have hctx : (ctxStep ctxInit (.authOk clientId remembered env defaultSession)) =
        (ensureAttachedSession env defaultSession
          { ctxInit with clientId := clientId, baseSession := remembered, authed := true }
          none).ctx := rfl
    rcases ensure_ctx_cases env defaultSession
        { ctxInit with clientId := clientId, baseSession := remembered, authed := true } none with
      hc | ⟨b, hb, herr2⟩
    · rw [hctx, hc]
      refine ⟨rfl, rfl, ?_⟩
      intro g
      simp [mutationNeedingAttached, ctxInit, strTruthy]
    · have := attach_err_ctx env.attachEnv _ b e (by rw [← herr2]; exact herr)
      rw [hctx, hb, this]
      refine ⟨rfl, rfl, ?_⟩
      intro g
      simp [mutationNeedingAttached, ctxInit, strTruthy]

/-- Witness for C4 (amended): after a clean initial attach the context has
both an attached session and a runtime; and when the initial attach fails
on `listSessions` the context stays authenticated with no attached
session and mutations fail with `no attached session`. -/
theorem attached_session_implies_runtime_witness :
    ((ctxRun [CtxEv.authOk "c1" none
        { listSessionsRes := .ok []
          createSessionRes := .ok ()
          attachEnv :=
            { listSessionsRes := .ok [], killRes := .ok (), createGroupedRes := .ok () } }
        "main"]).attachedSession.isSome →
      (ctxRun [CtxEv.authOk "c1" none
        { listSessionsRes := .ok []
          createSessionRes := .ok ()
          attachEnv :=
            { listSessionsRes := .ok [], killRes := .ok (), createGroupedRes := .ok () } }
        "main"]).runtime = true) ∧
    (ctxStep ctxInit (.authOk "c1" none
        { listSessionsRes := .error "tmux command failed"
          createSessionRes := .ok ()
          attachEnv :=
            { listSessionsRes := .ok [], killRes := .ok (), createGroupedRes := .ok () } }
        "main")).authed = true ∧
    (ctxStep ctxInit (.authOk "c1" none
        { listSessionsRes := .error "tmux command failed"
          createSessionRes := .ok ()
          attachEnv :=
            { listSessionsRes := .ok [], killRes := .ok (), createGroupedRes := .ok () } }
        "main")).attachedSession = none :=
  ⟨attached_session_implies_runtime.1 [CtxEv.authOk "c1" none
      { listSessionsRes := .ok []
        createSessionRes := .ok ()
        attachEnv := { listSessionsRes := .ok [], killRes := .ok (), createGroupedRes := .ok () } }
      "main"],
    ((attached_session_implies_runtime.2 "c1" none
      { listSessionsRes := .error "tmux command failed"
        createSessionRes := .ok ()
        attachEnv := { listSessionsRes := .ok [], killRes := .ok (), createGroupedRes := .ok () } }
      "main" "tmux command failed" (by decide)).1),
    ((attached_session_implies_runtime.2 "c1" none
      { listSessionsRes := .error "tmux command failed"
        createSessionRes := .ok ()
        attachEnv := { listSessionsRes := .ok [], killRes := .ok (), createGroupedRes := .ok () } }
      "main" "tmux command failed" (by decide)).2.1)⟩

/-- Counterexample for C4 as stated: a reachable context state — produced
by an authentication whose initial attach fails on the gateway's
`listSessions` inside `attachControlToBaseSession` — holds a runtime
object while `attachedSession` is unset, refuting the claimed
equivalence. -/
theorem runtime_iff_attached_counterexample :
    ¬(((ctxRun [CtxEv.authOk "c1" none
        { listSessionsRes := .ok [⟨"work", false, 1⟩]
          createSessionRes := .ok ()
          attachEnv :=
            { listSessionsRes := .error "tmux command failed", killRes := .ok (),
              createGroupedRes := .ok () } }
        "main"]).runtime = true) ↔
      ((ctxRun [CtxEv.authOk "c1" none
        { listSessionsRes := .ok [⟨"work", false, 1⟩]
          createSessionRes := .ok ()
          attachEnv :=
            { listSessionsRes := .error "tmux command failed", killRes := .ok (),
              createGroupedRes := .ok () } }
        "main"]).attachedSession.isSome = true)) := by
  decide

/-! ## C3 helper lemmas: broker bookkeeping well-formedness -/

/-- Distinct pairwise keys make the key function injective on members. -/
theorem key_inj {α β : Type} {f : α → β} {l : List α}
    (hp : l.Pairwise (fun x y => f x ≠ f y)) {a b : α}
    (ha : a ∈ l) (hb : b ∈ l) (h : f a = f b) : a = b := by
  by_contra hne
  exact List.Pairwise.forall (fun x y hxy => hxy.symm) hp ha hb hne h

/-- Updating control fields other than `cid` and `socks` preserves
well-formedness. -/
theorem wf_ctl_fields_map (bb : Broker) (h : BrokerWF bb) (f : CCtx → CCtx)
    (hcid : ∀ x, (f x).cid = x.cid) (hsocks : ∀ x, (f x).socks = x.socks) :
    BrokerWF { bb with controls := bb.controls.map f } := by
  constructor
  · intro c hc
    rcases List.mem_map.mp hc with ⟨a, ha, rfl⟩
    rw [hcid]
    exact h.cidLt a ha
  · rw [List.pairwise_map]
    refine h.cidDistinct.imp ?_
    intro a b hab
    rw [hcid, hcid]
    exact hab
  · exact h.sidLt
  · exact h.sidDistinct
  · intro c hc sid hsid
    rcases List.mem_map.mp hc with ⟨a, ha, rfl⟩
    rw [hsocks] at hsid
    obtain ⟨d, hd, e1, e2, e3⟩ := h.sockBound a ha sid hsid
    exact ⟨d, hd, e1, e2, by rw [hcid]; exact e3⟩

/-- `ctlShutdown` preserves well-formedness. -/
theorem ctlShutdown_wf (b : Broker) (cid : Nat) (h : BrokerWF b) :
    BrokerWF (ctlShutdown b cid) := by
  cases hf : b.controls.find? (fun c => c.cid = cid) with
  | none => simp only [ctlShutdown, hf]; exact h
  | some c =>
    simp only [ctlShutdown, hf]
    have hcmem : c ∈ b.controls := List.mem_of_find?_eq_some hf
    have hccid : c.cid = cid := by simpa using List.find?_some hf
    constructor
    · intro x hx
      exact h.cidLt x (List.mem_of_mem_filter hx)
    · exact List.Pairwise.sublist (List.filter_sublist _) h.cidDistinct
    · intro d hd
      exact h.sidLt d (List.mem_of_mem_filter hd)
    · exact List.Pairwise.sublist (List.filter_sublist _) h.sidDistinct
    · intro x hx sid hsid
      have hx2 := List.mem_filter.mp hx
      have hxc : x.cid ≠ cid := by simpa using hx2.2
      obtain ⟨d0, hd0, e1, e2, e3⟩ := h.sockBound x hx2.1 sid hsid
      refine ⟨d0, ?_, e1, e2, e3⟩
      rw [List.mem_filter]
      refine ⟨hd0, ?_⟩
      simp only [Bool.not_eq_true']
      rw [Bool.eq_false_iff]
      intro hcon
      have hmem : d0.sid ∈ c.socks := by simpa using hcon
      obtain ⟨d1, hd1, f1, f2, f3⟩ := h.sockBound c hcmem d0.sid hmem
      have : d1 = d0 := key_inj h.sidDistinct hd1 hd0 f1
      subst this
      rw [e3] at f3
      exact hxc ((Option.some.inj f3).trans hccid)

/-- Every broker event preserves well-formedness. -/
theorem brokerStep_wf (b : Broker) (ev : BEv) (h : BrokerWF b) :
    BrokerWF (brokerStep b ev) := by
  cases ev with
  | ctlConnect =>
    simp only [brokerStep]
    constructor
    · intro c hc
      rcases List.mem_append.mp hc with hc | hc
      · exact Nat.lt_succ_of_lt (h.cidLt c hc)
      · rcases List.mem_singleton.mp hc with rfl
        exact Nat.lt_succ_self _
    · rw [List.pairwise_append]
      refine ⟨h.cidDistinct, by simp, ?_⟩
      intro x hx y hy
      rcases List.mem_singleton.mp hy with rfl
      have := h.cidLt x hx
      simp only []
      omega
    · exact h.sidLt
    · exact h.sidDistinct
    · intro c hc sid hsid
      rcases List.mem_append.mp hc with hc | hc
      · exact h.sockBound c hc sid hsid
      · rcases List.mem_singleton.mp hc with rfl
        simp at hsid
  | ctlAuth cid clientId =>
    simp only [brokerStep]
    cases hf : b.controls.find? (fun c => c.cid = cid) with
    | none => exact h
    | some me =>
      by_cases hauth : me.authed
      · simp only [if_pos hauth]
        exact h
      · simp only [if_neg hauth]
        cases hev : b.controls.find? (fun c => c.cid ≠ cid && c.authed && c.clientId = clientId) with
        | none =>
          exact wf_ctl_fields_map b h _
            (fun x => by by_cases h2 : x.cid = cid <;> simp [h2])
            (fun x => by by_cases h2 : x.cid = cid <;> simp [h2])
        | some ex =>
          exact wf_ctl_fields_map (ctlShutdown b ex.cid) (ctlShutdown_wf b ex.cid h) _
            (fun x => by by_cases h2 : x.cid = cid <;> simp [h2])
            (fun x => by by_cases h2 : x.cid = cid <;> simp [h2])
  | ctlClose cid =>
    simp only [brokerStep]
    exact ctlShutdown_wf b cid h
  | dataConnect =>
    simp only [brokerStep]
    constructor
    · exact h.cidLt
    · exact h.cidDistinct
    · intro d hd
      rcases List.mem_append.mp hd with hd | hd
      · exact Nat.lt_succ_of_lt (h.sidLt d hd)
      · rcases List.mem_singleton.mp hd with rfl
        exact Nat.lt_succ_self _
    · rw [List.pairwise_append]
      refine ⟨h.sidDistinct, by simp, ?_⟩
      intro x hx y hy
      rcases List.mem_singleton.mp hy with rfl
      have := h.sidLt x hx
      simp only []
      omega
    · intro c hc sid hsid
      obtain ⟨d, hd, e1, e2, e3⟩ := h.sockBound c hc sid hsid
      exact ⟨d, List.mem_append_left _ hd, e1, e2, e3⟩
  | dataAuth sid clientId =>
    simp only [brokerStep]
    cases hf : b.datas.find? (fun d => d.sid = sid) with
    | none => exact h
    | some d =>
      have hdmem : d ∈ b.datas := List.mem_of_find?_eq_some hf
      have hdsid : d.sid = sid := by simpa using List.find?_some hf
      by_cases hauth : d.authed
      · simp only [if_pos hauth]
        exact h
      · simp only [if_neg hauth]
        cases hc : findCtl b clientId with
        | none =>
          constructor
          · exact h.cidLt
          · exact h.cidDistinct
          · intro d2 hd2
            exact h.sidLt d2 (List.mem_of_mem_filter hd2)
          · exact List.Pairwise.sublist (List.filter_sublist _) h.sidDistinct
          · intro c hcm sid2 hs2
            obtain ⟨d0, hd0, e1, e2, e3⟩ := h.sockBound c hcm sid2 hs2
            refine ⟨d0, ?_, e1, e2, e3⟩
            rw [List.mem_filter]
            refine ⟨hd0, ?_⟩
            have hne : d0.sid ≠ sid := by
              intro hEq
              have : d0 = d := key_inj h.sidDistinct hd0 hdmem (by rw [hEq, hdsid])
              subst this
              exact hauth e2
            simpa using hne
        | some c =>
          have hcmem : c ∈ b.controls := List.mem_of_find?_eq_some hc
          constructor
          · intro x hx
            rcases List.mem_map.mp hx with ⟨a, ha, rfl⟩
            have hpres : (if a.cid = c.cid then { a with socks := sid :: a.socks } else a).cid
                = a.cid := by
              by_cases h2 : a.cid = c.cid <;> simp [h2]
            rw [hpres]
            exact h.cidLt a ha
          · rw [List.pairwise_map]
            refine h.cidDistinct.imp ?_
            intro x y hxy
            have px : (if x.cid = c.cid then { x with socks := sid :: x.socks } else x).cid
                = x.cid := by
              by_cases h2 : x.cid = c.cid <;> simp [h2]
            have py : (if y.cid = c.cid then { y with socks := sid :: y.socks } else y).cid
                = y.cid := by
              by_cases h2 : y.cid = c.cid <;> simp [h2]
            rw [px, py]
            exact hxy
          · intro x hx
            rcases List.mem_map.mp hx with ⟨a, ha, rfl⟩
            have hpres : (if a.sid = sid then { a with authed := true, boundTo := some c.cid }
                else a).sid = a.sid := by
              by_cases h2 : a.sid = sid <;> simp [h2]
            rw [hpres]
            exact h.sidLt a ha
          · rw [List.pairwise_map]
            refine h.sidDistinct.imp ?_
            intro x y hxy
            have px : (if x.sid = sid then { x with authed := true, boundTo := some c.cid }
                else x).sid = x.sid := by
              by_cases h2 : x.sid = sid <;> simp [h2]
            have py : (if y.sid = sid then { y with authed := true, boundTo := some c.cid }
                else y).sid = y.sid := by
              by_cases h2 : y.sid = sid <;> simp [h2]
            rw [px, py]
            exact hxy
          · intro x hx sid2 hs2
            rcases List.mem_map.mp hx with ⟨a, ha, rfl⟩
            by_cases hac : a.cid = c.cid
            · simp only [if_pos hac] at hs2 ⊢
              rcases List.mem_cons.mp hs2 with h2 | h2
              · subst h2
                refine ⟨{ d with authed := true, boundTo := some c.cid }, ?_, ?_, rfl, ?_⟩
                · exact List.mem_map.mpr ⟨d, hdmem, by rw [if_pos hdsid]⟩
                · simpa using hdsid
                · simp [hac]
              · obtain ⟨d0, hd0, e1, e2, e3⟩ := h.sockBound a ha sid2 h2
                have hne : d0.sid ≠ sid := by
                  intro hEq
                  have : d0 = d := key_inj h.sidDistinct hd0 hdmem (by rw [hEq, hdsid])
                  subst this
                  exact hauth e2
                refine ⟨d0, ?_, e1, e2, ?_⟩
                · exact List.mem_map.mpr ⟨d0, hd0, by rw [if_neg hne]⟩
                · simpa [hac] using e3
            · simp only [if_neg hac] at hs2 ⊢
              obtain ⟨d0, hd0, e1, e2, e3⟩ := h.sockBound a ha sid2 hs2
              have hne : d0.sid ≠ sid := by
                intro hEq
                have : d0 = d := key_inj h.sidDistinct hd0 hdmem (by rw [hEq, hdsid])
                subst this
                exact hauth e2
              exact ⟨d0, List.mem_map.mpr ⟨d0, hd0, by rw [if_neg hne]⟩, e1, e2, e3⟩
  | dataClose sid =>
    simp only [brokerStep]
    cases hf : b.datas.find? (fun d => d.sid = sid) with
    | none => exact h
    | some d =>
      have hdmem : d ∈ b.datas := List.mem_of_find?_eq_some hf
      have hdsid : d.sid = sid := by simpa using List.find?_some hf
      dsimp only
      cases hbt : d.boundTo with
      | none =>
        constructor
        · exact h.cidLt
        · exact h.cidDistinct
        · intro d2 hd2
          exact h.sidLt d2 (List.mem_of_mem_filter hd2)
        · exact List.Pairwise.sublist (List.filter_sublist _) h.sidDistinct
        · intro c hcm sid2 hs2
          obtain ⟨d0, hd0, e1, e2, e3⟩ := h.sockBound c hcm sid2 hs2
          refine ⟨d0, ?_, e1, e2, e3⟩
          rw [List.mem_filter]
          refine ⟨hd0, ?_⟩
          have hne : d0.sid ≠ sid := by
            intro hEq
            have : d0 = d := key_inj h.sidDistinct hd0 hdmem (by rw [hEq, hdsid])
            subst this
            rw [hbt] at e3
            exact Option.noConfusion e3
          simpa using hne
      | some cid0 =>
        constructor
        · intro x hx
          rcases List.mem_map.mp hx with ⟨a, ha, rfl⟩
          have hpres : (if a.cid = cid0 then { a with socks := a.socks.filter (fun s => s ≠ sid) }
              else a).cid = a.cid := by
            by_cases h2 : a.cid = cid0 <;> simp [h2]
          rw [hpres]
          exact h.cidLt a ha
        · rw [List.pairwise_map]
          refine h.cidDistinct.imp ?_
          intro x y hxy
          have px : (if x.cid = cid0 then { x with socks := x.socks.filter (fun s => s ≠ sid) }
              else x).cid = x.cid := by
            by_cases h2 : x.cid = cid0 <;> simp [h2]
          have py : (if y.cid = cid0 then { y with socks := y.socks.filter (fun s => s ≠ sid) }
              else y).cid = y.cid := by
            by_cases h2 : y.cid = cid0 <;> simp [h2]
          rw [px, py]
          exact hxy
        · intro d2 hd2
          exact h.sidLt d2 (List.mem_of_mem_filter hd2)
        · exact List.Pairwise.sublist (List.filter_sublist _) h.sidDistinct
        · intro x hx sid2 hs2
          rcases List.mem_map.mp hx with ⟨a, ha, rfl⟩
          by_cases hac : a.cid = cid0
          · simp only [if_pos hac] at hs2 ⊢
            have hs2' := List.mem_filter.mp hs2
            have hs2ne : sid2 ≠ sid := by simpa using hs2'.2
            obtain ⟨d0, hd0, e1, e2, e3⟩ := h.sockBound a ha sid2 hs2'.1
            refine ⟨d0, ?_, e1, e2, e3⟩
            rw [List.mem_filter]
            exact ⟨hd0, by simpa using fun hEq => hs2ne (by rw [← e1, hEq])⟩
          · simp only [if_neg hac] at hs2 ⊢
            obtain ⟨d0, hd0, e1, e2, e3⟩ := h.sockBound a ha sid2 hs2
            have hne : d0.sid ≠ sid := by
              intro hEq
              have : d0 = d := key_inj h.sidDistinct hd0 hdmem (by rw [hEq, hdsid])
              subst this
              rw [hbt] at e3
              exact hac (Option.some.inj e3).symm
            refine ⟨d0, ?_, e1, e2, e3⟩
            rw [List.mem_filter]
            exact ⟨hd0, by simpa using hne⟩

/-- Every reachable broker bookkeeping state is well-formed. -/
theorem brokerRun_wf (evs : List BEv) : BrokerWF (brokerRun evs) := by
  have run : ∀ (l : List BEv) (b : Broker), BrokerWF b → BrokerWF (l.foldl brokerStep b) := by
    intro l
    induction l with
    | nil => intro b hb; simpa using hb
    | cons ev tl ih => intro b hb; exact ih _ (brokerStep_wf b ev hb)
  refine run evs brokerInit ?_
  constructor <;> simp [brokerInit]

/-! ## C3: PTY data isolation across clients -/

/-- **C3**: in every reachable broker state, a PTY chunk of control
context `A`'s runtime is written only to data sockets in `A`'s own bound
set, and never to a data socket bound to a context `B` with a different
client id. -/
theorem pty_data_isolation (evs : List BEv) (A B : CCtx)
    (hA : A ∈ (brokerRun evs).controls) (hB : B ∈ (brokerRun evs).controls)
    (hAB : A.clientId ≠ B.clientId) (sid : Nat)
    (hsid : sid ∈ dataTargets (brokerRun evs) A) :
    sid ∈ A.socks ∧ sid ∉ B.socks := by
  have hwf := brokerRun_wf evs
  have hmemA : sid ∈ A.socks := (List.mem_filter.mp hsid).1
  refine ⟨hmemA, ?_⟩
  intro hmemB
  obtain ⟨dA, hdA, a1, a2, a3⟩ := hwf.sockBound A hA sid hmemA
  obtain ⟨dB, hdB, b1, b2, b3⟩ := hwf.sockBound B hB sid hmemB
  have hdd : dA = dB := key_inj hwf.sidDistinct hdA hdB (by rw [a1, b1])
  subst hdd
  rw [a3] at b3
  have hcid : A.cid = B.cid := Option.some.inj b3
  have hABne : A ≠ B := fun hEq => hAB (by rw [hEq])
  exact List.Pairwise.forall (fun x y hxy => hxy.symm) hwf.cidDistinct hA hB hABne hcid

/-- Witness for C3: two clients `alice` and `bob`, each with one bound
data socket; a chunk from alice's runtime targets socket `0`, which is in
alice's bound set and not in bob's. -/
theorem pty_data_isolation_witness :
    (0 : Nat) ∈ (⟨0, "alice", true, [0]⟩ : CCtx).socks ∧
    (0 : Nat) ∉ (⟨1, "bob", true, [1]⟩ : CCtx).socks :=
  pty_data_isolation
    [BEv.ctlConnect, BEv.ctlAuth 0 "alice", BEv.ctlConnect, BEv.ctlAuth 1 "bob",
      BEv.dataConnect, BEv.dataAuth 0 "alice", BEv.dataConnect, BEv.dataAuth 1 "bob"]
    ⟨0, "alice", true, [0]⟩ ⟨1, "bob", true, [1]⟩
    (by decide) (by decide) (by decide) 0 (by decide)

/-! ## C9: unauthenticated data socket frames -/

/-- **C9**: on a not-yet-authenticated data socket, a binary frame closes
the socket with `4001 "auth required"`; a text JSON `auth` message whose
`clientId` does not normalize (it is missing, not a string, empty after
trimming, or longer than 128 characters once trimmed) closes the socket
with `4001 "unauthorized"`; in neither case does any byte reach a PTY. -/
theorem data_socket_preauth (cfgPassword : Option String) (cfgToken : String)
    (lookup : String → Bool) :
    (∀ data, handleTerminalUnauthed cfgPassword cfgToken lookup (.binaryFrame data) =
      .closeSock 4001 "auth required") ∧
    (∀ raw m, normalizeClientId m.clientId = none →
      handleTerminalUnauthed cfgPassword cfgToken lookup (.textFrame raw (some (.authMsg m))) =
        .closeSock 4001 "unauthorized") ∧
    (∀ v, normalizeClientId v = none ↔
      (v = none ∨ v = some .nonStr ∨ ∃ s, v = some (.str s) ∧
        (String.mk (trimChars s.toList) = "" ∨ 128 < (String.mk (trimChars s.toList)).length))) ∧
    (∀ data frameData,
      handleTerminalUnauthed cfgPassword cfgToken lookup (.binaryFrame frameData) ≠
        .writePty data) ∧
    (∀ data raw m, normalizeClientId m.clientId = none →
      handleTerminalUnauthed cfgPassword cfgToken lookup (.textFrame raw (some (.authMsg m))) ≠
        .writePty data) := by
  refine ⟨fun data => rfl, ?_, ?_, fun data frameData => by simp [handleTerminalUnauthed], ?_⟩
  · intro raw m h
    simp [handleTerminalUnauthed, h]
  · intro v
    match v with
    | none => simp [normalizeClientId]
    | some .nonStr => simp [normalizeClientId]
    | some (.str s) =>
      constructor
      · intro h
        refine Or.inr (Or.inr ⟨s, rfl, ?_⟩)
        by_contra hc
        push_neg at hc
        simp only [normalizeClientId] at h
        rw [if_neg] at h
        · exact Option.some_ne_none _ h
        · rintro (h1 | h1)
          · exact hc.1 h1
          · exact absurd h1 (not_lt.mpr hc.2)
      · intro h
        rcases h with h | h | ⟨s2, hs2, hcond⟩
        · simp at h
        · simp at h
        · injection hs2 with h3
          injection h3 with h4
          subst h4
          simp only [normalizeClientId]
          rw [if_pos hcond]
  · intro data raw m h
    simp [handleTerminalUnauthed, h]

/-- Witness for C9: a binary frame before auth is closed with
`auth required`, and an auth message whose client id trims to the empty
string is closed with `unauthorized`. -/
theorem data_socket_preauth_witness :
    handleTerminalUnauthed none "t" (fun _ => true) (.binaryFrame "x") =
      .closeSock 4001 "auth required" ∧
    handleTerminalUnauthed none "t" (fun _ => true)
        (.textFrame "raw" (some (.authMsg ⟨some "t", none, some (.str "  ")⟩))) =
      .closeSock 4001 "unauthorized" :=
  ⟨(data_socket_preauth none "t" (fun _ => true)).1 "x",
    (data_socket_preauth none "t" (fun _ => true)).2.1 "raw"
      ⟨some "t", none, some (.str "  ")⟩ (by decide)⟩
